import Mathlib

/-!
# Verification of the client-side signaling and negotiation logic of `vc`

A shallow embedding of `src/frontend/src/components/VideoCall.js` and
`src/frontend/src/utils/api.js`.  Browser capabilities (WebRTC peer
connections, media devices, WebSocket transport) are modelled as explicit
data; the asynchronous SDP operations (`createOffer`, `createAnswer`,
`setLocalDescription`, `setRemoteDescription`) are modelled on their
success path as deterministic functions, since the source catches and
logs their failures without further state change.
-/

namespace VC

/-- The WebSocket readyState used by the source (`WebSocket.OPEN === 1`). -/
def wsOPEN : Nat := 1

/-- An ICE candidate payload, as in `{candidate, sdpMLineIndex, sdpMid}`. -/
structure IceCandidate where
  candidate : String
  sdpMLineIndex : Nat
  sdpMid : String
deriving DecidableEq, Repr

/-- An SDP session description `{sdp, type}`. -/
structure SessionDesc where
  sdp : String
  sdpType : String
deriving DecidableEq, Repr

/-- Kind of a media track (`track.kind` in the browser). -/
inductive TrackKind
  | audio
  | video
deriving DecidableEq, Repr

/-- Where a track was acquired from: `getUserMedia` (camera/microphone) or
`getDisplayMedia` (screen capture). -/
inductive TrackSource
  | camera
  | screen
deriving DecidableEq, Repr

/-- A media track.  `stopped` records whether `track.stop()` was called. -/
structure MediaTrack where
  kind : TrackKind
  source : TrackSource
  stopped : Bool
deriving DecidableEq, Repr

/-- The deterministic result of `getUserMedia({video:true, audio:true})`. -/
def cameraTracks : List MediaTrack :=
  [⟨TrackKind.video, TrackSource.camera, false⟩,
   ⟨TrackKind.audio, TrackSource.camera, false⟩]

/-- The deterministic result of `getDisplayMedia({video:true, audio:true})`. -/
def screenTracks : List MediaTrack :=
  [⟨TrackKind.video, TrackSource.screen, false⟩,
   ⟨TrackKind.audio, TrackSource.screen, false⟩]

/-- One `RTCPeerConnection` as the client uses it: local/remote description,
the outgoing senders (one per added track), the ICE candidates applied so
far, and whether `close()` was called. -/
structure PeerLink where
  localDescription : Option SessionDesc
  remoteDescription : Option SessionDesc
  senders : List MediaTrack
  appliedCandidates : List IceCandidate
  closed : Bool
deriving DecidableEq, Repr

/-- `Map.get` on a JS `Map` modelled as an association list. -/
def mapGet {α : Type} (m : List (String × α)) (k : String) : Option α :=
  (m.find? (fun p => p.1 = k)).map (fun p => p.2)

/-- `Map.has`. -/
def mapHas {α : Type} (m : List (String × α)) (k : String) : Bool :=
  m.any (fun p => p.1 = k)

/-- `Map.set` (replaces an existing binding, else appends). -/
def mapSet {α : Type} (m : List (String × α)) (k : String) (v : α) :
    List (String × α) :=
  if mapHas m k then m.map (fun p => if p.1 = k then (k, v) else p) else m ++ [(k, v)]

/-- `Map.delete`. -/
def mapDelete {α : Type} (m : List (String × α)) (k : String) :
    List (String × α) :=
  m.filter (fun p => ¬ p.1 = k)

/-- A signaling message sent by this client over the WebSocket
(the payloads handed to `sendSignalingMessage`, plus `join` sent in
`ws.onopen` and `leave` sent in `handleLeave`). -/
inductive OutMsg
  | offerMsg (roomId : String) (d : SessionDesc)
  | answerMsg (roomId : String) (d : SessionDesc)
  | iceMsg (roomId : String) (c : IceCandidate)
  | joinMsg (roomId : String) (userId : String)
  | leaveMsg (roomId : String)
  | muteStatusMsg (roomId : String) (muted : Bool)
  | emojiMsg (roomId : String) (e : String)
deriving DecidableEq, Repr

/-- The type-specific `data` payload of an incoming signaling message. -/
inductive MsgData
  | empty
  | desc (d : SessionDesc)
  | cand (c : IceCandidate)
  | participants (ids : List String)
  | connectedId (id : String)
  | muted (b : Bool)
  | emojiStr (e : String)
deriving DecidableEq, Repr

/-- An incoming signaling message envelope
`{type, sender_id?, user_id?, data?}`. -/
structure InMessage where
  mtype : String
  senderId : Option String
  userId : Option String
  payload : MsgData
deriving DecidableEq, Repr

/-- The client-side mutable state of the `VideoCall` component that the
signaling, reconnection and teardown logic reads and writes: the refs
(`wsRef` with its assigned `userId`, `peersRef`, `localStreamRef`,
`reconnectTimeoutRef`, `reconnectAttemptsRef`) and the React state the
core logic uses.  Purely cosmetic state (remote usernames, floating
emojis, remote mute badges, grid layout) is outside the model. -/
structure ClientState where
  myId : Option String
  peers : List (String × PeerLink)
  localTracks : Option (List MediaTrack)
  wsReady : Option Nat
  reconnectTimerActive : Bool
  reconnectAttempts : Nat
  isScreenSharing : Bool
  isConnected : Bool
  isMuted : Bool
  isLoading : Bool
  errorMsg : Option String
deriving DecidableEq, Repr

/-- The state of the component right after mounting. -/
def initialClientState : ClientState :=
  { myId := none, peers := [], localTracks := none, wsReady := none,
    reconnectTimerActive := false, reconnectAttempts := 0,
    isScreenSharing := false, isConnected := false, isMuted := false,
    isLoading := true, errorMsg := none }

/-- `maxReconnectAttempts = 5` in the source. -/
def maxReconnectAttempts : Nat := 5

/-- The deterministic success result of `RTCPeerConnection.createOffer()`. -/
def offerDesc : SessionDesc := ⟨"offer-sdp", "offer"⟩

/-- The deterministic success result of `RTCPeerConnection.createAnswer()`. -/
def answerDesc : SessionDesc := ⟨"answer-sdp", "answer"⟩

/-- `sendSignalingMessage`: the message goes out only when the WebSocket
exists and its readyState is OPEN; otherwise it is dropped with a warning. -/
def sendSignalingMessage (s : ClientState) (m : OutMsg) : List OutMsg :=
  if s.wsReady = some wsOPEN then [m] else []

/-- `createPeerConnection userId` builds a fresh `RTCPeerConnection` and
adds every current local track to it.  The event callbacks it installs
(`ontrack`, `onicecandidate`, `onconnectionstatechange`) are driven by the
browser and are outside this model. -/
def freshPeerLink (s : ClientState) : PeerLink :=
  { localDescription := none, remoteDescription := none,
    senders := s.localTracks.getD [], appliedCandidates := [],
    closed := false }

/-- `RTCPeerConnection.addIceCandidate`: applying a candidate before the
remote description is set rejects (the source catches and logs the error,
losing the candidate); with a remote description in place the candidate is
applied. -/
def addIceCandidate (pc : PeerLink) (c : IceCandidate) : PeerLink :=
  if pc.remoteDescription.isSome then
    { pc with appliedCandidates := pc.appliedCandidates ++ [c] }
  else pc

/-- The `case 'user-joined'` arm of `handleSignalingMessage`: pick the
joining identity from `user_id || sender_id`, skip self and identities
that already have a peer connection, otherwise create a connection,
create and set a local offer, and send it. -/
def handleUserJoined (roomId : String) (m : InMessage) (s : ClientState) :
    ClientState × List OutMsg :=
  match m.userId <|> m.senderId with
  | none => (s, [])
  | some uid =>
    if s.myId = some uid then (s, [])
    else if mapHas s.peers uid then (s, [])
    else
      let pc := { freshPeerLink s with localDescription := some offerDesc }
      let s1 := { s with peers := mapSet s.peers uid pc }
      (s1, sendSignalingMessage s1 (OutMsg.offerMsg roomId offerDesc))

/-- The `case 'offer'` arm: reuse or create the peer connection for the
sender, apply the offer as remote description, create and set a local
answer, and send the answer.  A payload that is not a session description
makes the RTCSessionDescription constructor throw; the handler catches it
and changes nothing further. -/
def handleOffer (roomId : String) (m : InMessage) (s : ClientState) :
    ClientState × List OutMsg :=
  match m.senderId with
  | none => (s, [])
  | some sid =>
    match m.payload with
    | MsgData.desc d =>
      let pc0 := match mapGet s.peers sid with
        | some pc => pc
        | none => freshPeerLink s
      let pc := { pc0 with remoteDescription := some d,
                           localDescription := some answerDesc }
      ({ s with peers := mapSet s.peers sid pc },
       sendSignalingMessage s (OutMsg.answerMsg roomId answerDesc))
    | _ => (s, [])

/-- The `case 'answer'` arm: apply the answer as remote description on the
sender's existing peer connection; with no such connection nothing
happens. -/
def handleAnswer (m : InMessage) (s : ClientState) :
    ClientState × List OutMsg :=
  match m.senderId with
  | none => (s, [])
  | some sid =>
    match mapGet s.peers sid, m.payload with
    | some pc, MsgData.desc d =>
      ({ s with peers := mapSet s.peers sid
                  { pc with remoteDescription := some d } }, [])
    | _, _ => (s, [])

/-- The `case 'ice-candidate'` arm: apply the candidate to the sender's
existing peer connection; with no such connection the candidate is
silently discarded (there is no queue). -/
def handleIceCandidate (m : InMessage) (s : ClientState) :
    ClientState × List OutMsg :=
  match m.senderId with
  | none => (s, [])
  | some sid =>
    match mapGet s.peers sid, m.payload with
    | some pc, MsgData.cand c =>
      ({ s with peers := mapSet s.peers sid (addIceCandidate pc c) }, [])
    | _, _ => (s, [])

/-- The `case 'user-left'` arm: close and delete the sender's peer
connection (the remote stream, mute and username maps it also cleans are
outside the model). -/
def handleUserLeft (m : InMessage) (s : ClientState) :
    ClientState × List OutMsg :=
  match m.senderId with
  | none => (s, [])
  | some sid => ({ s with peers := mapDelete s.peers sid }, [])

/-- The `case 'connected'` arm: store the assigned identity on the
WebSocket object, mark connected, reset the reconnection attempt counter,
clear the loading flag. -/
def handleConnected (m : InMessage) (s : ClientState) :
    ClientState × List OutMsg :=
  let s1 := match m.payload with
    | MsgData.connectedId uid =>
      if s.wsReady.isSome then { s with myId := some uid } else s
    | _ => s
  ({ s1 with isConnected := true, reconnectAttempts := 0,
             isLoading := false }, [])

/-- One step of the `case 'existing-participants'` arm for one enumerated
identity: skip self and identities that already have a peer connection,
otherwise create a connection, create and set a local offer, and send it. -/
def existingParticipantStep (roomId : String)
    (acc : ClientState × List OutMsg) (uid : String) :
    ClientState × List OutMsg :=
  let (st, msgs) := acc
  if st.myId = some uid then (st, msgs)
  else if mapHas st.peers uid then (st, msgs)
  else
    let pc := { freshPeerLink st with localDescription := some offerDesc }
    let st1 := { st with peers := mapSet st.peers uid pc }
    (st1, msgs ++ sendSignalingMessage st1 (OutMsg.offerMsg roomId offerDesc))

/-- The `case 'existing-participants'` arm: iterate the enumerated
identities (the `Promise.all` over `data.participants`, whose synchronous
prefixes run in list order). -/
def handleExistingParticipants (roomId : String) (m : InMessage)
    (s : ClientState) : ClientState × List OutMsg :=
  match m.payload with
  | MsgData.participants ids =>
    ids.foldl (existingParticipantStep roomId) (s, [])
  | _ => (s, [])

/-- `handleSignalingMessage`: the self-filter at the top, then the
dispatch on the message type.  The `join`, `emoji` and `mute-status` arms
only touch cosmetic state outside the model, and the `error` and default
arms only log. -/
def handleSignalingMessage (roomId : String) (m : InMessage)
    (s : ClientState) : ClientState × List OutMsg :=
  let actual := m.senderId <|> m.userId
  if actual ≠ none ∧ actual = s.myId ∧ m.mtype ≠ "user-joined" ∧
      m.mtype ≠ "existing-participants" ∧ m.mtype ≠ "connected" then
    (s, [])
  else
    match m.mtype with
    | "user-joined" => handleUserJoined roomId m s
    | "offer" => handleOffer roomId m s
    | "answer" => handleAnswer m s
    | "ice-candidate" => handleIceCandidate m s
    | "user-left" => handleUserLeft m s
    | "connected" => handleConnected m s
    | "existing-participants" => handleExistingParticipants roomId m s
    | _ => (s, [])

/-- What the `ws.onclose` handler does besides mutating state: give up
terminally (with or without an error), or schedule a reconnect attempt
after a delay in milliseconds. -/
inductive CloseOutcome
  | fatalRoomMissing
  | normalClosure
  | retryScheduled (delayMs : Nat)
  | fatalMaxAttempts
deriving DecidableEq, Repr

/-- The `ws.onclose` handler of `connectWebSocket`: close code 1008 means
the room does not exist (terminal error, no retry); 1000 is a normal
closure (no retry); any other code retries with exponential backoff while
the attempt counter is below `maxReconnectAttempts`, and otherwise
surfaces a terminal error. -/
def wsOnClose (roomId : String) (code : Nat) (s : ClientState) :
    ClientState × CloseOutcome :=
  let s0 := { s with isConnected := false }
  if code = 1008 then
    ({ s0 with errorMsg := some ("Room \x22" ++ roomId ++
        "\x22 does not exist. Please create a new room or check the room ID.") },
     CloseOutcome.fatalRoomMissing)
  else if code = 1000 then (s0, CloseOutcome.normalClosure)
  else if s0.reconnectAttempts < maxReconnectAttempts then
    let a := s0.reconnectAttempts + 1
    let delay := min (1000 * 2 ^ a) 30000
    ({ s0 with reconnectAttempts := a, reconnectTimerActive := true },
     CloseOutcome.retryScheduled delay)
  else
    ({ s0 with errorMsg := some ("Failed to connect to server. Make sure the " ++
        "backend is running on port 8000 and the room exists.") },
     CloseOutcome.fatalMaxAttempts)

/-- The `ws.onopen` handler: mark connected, reset the attempt counter to
zero, and send the `join` message carrying the display name. -/
def wsOnOpen (roomId username : String) (s : ClientState) :
    ClientState × List OutMsg :=
  ({ s with isConnected := true, reconnectAttempts := 0,
            wsReady := some wsOPEN },
   [OutMsg.joinMsg roomId username])

/-- The synchronous body of `connectWebSocket`: close a still-open
previous socket, fail fast on an empty room id, otherwise construct a new
WebSocket (readyState CONNECTING = 0) whose handlers are `wsOnOpen`,
`wsOnClose` and `handleSignalingMessage`. -/
def connectWebSocket (roomId : String) (s : ClientState) : ClientState :=
  let s0 := if s.wsReady = some wsOPEN then { s with wsReady := none } else s
  if roomId = "" then { s0 with errorMsg := some "Room ID is missing" }
  else { s0 with wsReady := some 0 }

/-- The outcomes of `n` consecutive `ws.onclose` events with the same
close code and no successful reconnection in between. -/
def consecutiveCloseOutcomes (roomId : String) (code : Nat)
    (s : ClientState) : Nat → List CloseOutcome
  | 0 => []
  | n + 1 =>
    let r := wsOnClose roomId code s
    r.2 :: consecutiveCloseOutcomes roomId code r.1 n

/-- `initializeLocalStream`, parameterised by whether `getUserMedia`
succeeds.  On failure it records the error and returns normally — it does
not abort initialization. -/
def initializeLocalStream (granted : Bool) (s : ClientState) : ClientState :=
  if granted then
    { s with localTracks := some cameraTracks, isLoading := false }
  else
    { s with errorMsg := some "Could not access camera/microphone: denied",
             isLoading := false }

/-- The `init` function of the mount effect (the mounted,
not-yet-initialized case): acquire local media, then — whether or not that
succeeded — connect the signaling WebSocket when a room id is present.
The returned flag records whether `connectWebSocket` was invoked. -/
def initCall (granted : Bool) (roomId : String) (s : ClientState) :
    ClientState × Bool :=
  let s1 := initializeLocalStream granted s
  if roomId ≠ "" then (connectWebSocket roomId s1, true)
  else ({ s1 with errorMsg := some "Room ID is missing", isLoading := false },
        false)

/-- Replace the track of the first sender holding a video track
(`getSenders().find(s.track && s.track.kind === video)` followed by
`replaceTrack`); with no video sender nothing changes. -/
def replaceFirstVideo (nt : MediaTrack) : List MediaTrack → List MediaTrack
  | [] => []
  | t :: ts =>
    if t.kind = TrackKind.video then nt :: ts
    else t :: replaceFirstVideo nt ts

/-- The new local track list after starting screen share: the display
stream plus the first audio track carried over from the previous local
stream (whose camera video track is stopped and dropped). -/
def screenShareLocalTracks (s : ClientState) : List MediaTrack :=
  match s.localTracks with
  | some old => screenTracks ++ (old.filter (fun t => t.kind = TrackKind.audio)).take 1
  | none => screenTracks

/-- `toggleScreenShare`.  `renderIsSharing` is the value of the
`isScreenSharing` state variable captured by the invoked closure: each
render produces a fresh `toggleScreenShare` closing over that render's
value, so the control-panel button invokes the current render's closure
and passes the current value, while the `onended` handler registered at
share start keeps the closure it captured then.  `granted` is whether
the `getDisplayMedia` / `getUserMedia` call at the top of the taken
branch succeeds; on rejection the catch block only hides the warning
overlay and possibly alerts, changing no modelled state.  Branch for
`renderIsSharing = false`: acquire a display stream, replace the video
sender track of every peer connection with the screen video track, move
the audio track over, stop the camera video track, register the
`onended` handler, and mark sharing.  Branch for `renderIsSharing =
true`: acquire a fresh camera stream, replace every peer connection's
video sender track with the new camera video track, stop the screen
video tracks, install the camera stream, and unmark sharing.  No
signaling message is sent on any path. -/
def toggleScreenShare (renderIsSharing granted : Bool) (s : ClientState) :
    ClientState × List OutMsg :=
  if ¬ renderIsSharing then
    if granted then
      let videoTrack : MediaTrack := ⟨TrackKind.video, TrackSource.screen, false⟩
      let peers := s.peers.map
        (fun p => (p.1, { p.2 with senders := replaceFirstVideo videoTrack p.2.senders }))
      ({ s with peers := peers, localTracks := some (screenShareLocalTracks s),
                isScreenSharing := true }, [])
    else (s, [])
  else
    if granted then
      let videoTrack : MediaTrack := ⟨TrackKind.video, TrackSource.camera, false⟩
      let peers := s.peers.map
        (fun p => (p.1, { p.2 with senders := replaceFirstVideo videoTrack p.2.senders }))
      ({ s with peers := peers, localTracks := some cameraTracks,
                isScreenSharing := false }, [])
    else (s, [])

/-- The `videoTrack.onended` handler registered when screen sharing
starts: it hides the warning overlay (outside the model) and invokes the
`toggleScreenShare` closure it captured.  That closure belongs to the
render in which sharing was started, where the `isScreenSharing` state
variable still reads `false`, so the handler re-runs the start-share
branch — not the revert branch its comment announces. -/
def screenTrackEnded (granted : Bool) (s : ClientState) :
    ClientState × List OutMsg :=
  toggleScreenShare false granted s

/-- `handleLeave`: close every peer connection and clear the map, stop
every local track, send `leave` when the socket is open, close and null
the socket, and clear the pending reconnection timer.  The second
component lists the messages sent; the third lists the identities whose
peer connections were closed. -/
def handleLeave (roomId : String) (s : ClientState) :
    ClientState × List OutMsg × List String :=
  let closedPeers := s.peers.map (fun p => p.1)
  let s1 := { s with peers := [] }
  let s2 := { s1 with localTracks :=
    s1.localTracks.map (List.map (fun t : MediaTrack => { t with stopped := true })) }
  let sent := if s2.wsReady = some wsOPEN then [OutMsg.leaveMsg roomId] else []
  let s3 := { s2 with wsReady := none }
  let s4 := { s3 with reconnectTimerActive := false }
  (s4, sent, closedPeers)

/-- `response.ok` of the Fetch API: status in [200, 300). -/
def statusOk (status : Nat) : Bool := 200 ≤ status && status < 300

/-- What a `fetch` of the room-lookup endpoint can come back with: a
network failure, or an HTTP response with a status and a JSON body whose
optional `exists` field is modelled (this backend answers with a boolean
or omits the field). -/
inductive FetchOutcome
  | networkFailure
  | httpResponse (status : Nat) (existsField : Option Bool)
deriving DecidableEq, Repr

/-- `checkRoomExists` from `src/frontend/src/utils/api.js`: 404 means the
room is absent (false); any other non-OK status throws; an OK response
yields `data.exists || false`.  A fetch-level network failure is rethrown
with a friendlier message. -/
def checkRoomExists : FetchOutcome → Except String Bool
  | FetchOutcome.networkFailure =>
      Except.error ("Network error: Could not connect to backend server. " ++
        "Make sure it is running on port 8000.")
  | FetchOutcome.httpResponse status existsField =>
      if status = 404 then Except.ok false
      else if ¬ statusOk status then
        Except.error ("HTTP error! status: " ++ toString status)
      else Except.ok (existsField.getD false)

/-- The first sender holding a video track of a peer connection. -/
def videoSenderTrack (pc : PeerLink) : Option MediaTrack :=
  pc.senders.find? (fun t => t.kind = TrackKind.video)

/-- The audio sender tracks of a peer connection. -/
def audioSenderTracks (pc : PeerLink) : List MediaTrack :=
  pc.senders.filter (fun t => t.kind = TrackKind.audio)

/-- The screen video track acquired when screen sharing starts. -/
def screenVideoTrack : MediaTrack := ⟨TrackKind.video, TrackSource.screen, false⟩

/-- The camera video track acquired when screen sharing stops. -/
def cameraVideoTrack : MediaTrack := ⟨TrackKind.video, TrackSource.camera, false⟩

/-- Replace the video sender track of one peer connection. -/
def withVideoSender (nt : MediaTrack) (q : PeerLink) : PeerLink :=
  { q with senders := replaceFirstVideo nt q.senders }

/-- A sample negotiated PeerLink sending the camera tracks. -/
def samplePeerLink : PeerLink :=
  { localDescription := some offerDesc, remoteDescription := some answerDesc,
    senders := cameraTracks, appliedCandidates := [], closed := false }

/-- A sample in-call state: identity "me", one PeerLink for "bob", live
camera tracks, open socket. -/
def sampleShareState : ClientState :=
  { initialClientState with
      myId := some "me",
      peers := [("bob", samplePeerLink)],
      localTracks := some cameraTracks,
      wsReady := some wsOPEN }

/-! ## Auxiliary lemmas -/

theorem mapGet_mapValues {α β : Type} (f : α → β) (l : List (String × α))
    (k : String) :
    mapGet (l.map (fun p => (p.1, f p.2))) k = (mapGet l k).map f := by
  induction l with
  | nil => rfl
  | cons hd tl ih =>
    by_cases h : hd.1 = k
    · simp [mapGet, List.find?, h]
    · simpa [mapGet, List.find?, h] using ih

theorem replaceFirstVideo_filter_audio (nt : MediaTrack)
    (h : nt.kind = TrackKind.video) (l : List MediaTrack) :
    (replaceFirstVideo nt l).filter (fun t => t.kind = TrackKind.audio) =
      l.filter (fun t => t.kind = TrackKind.audio) := by
  induction l with
  | nil => rfl
  | cons t ts ih =>
    by_cases hv : t.kind = TrackKind.video
    · simp [replaceFirstVideo, hv, h, List.filter]
    · simp [replaceFirstVideo, hv, List.filter]
      rcases hk : t.kind with _ | _
      · simpa [hk] using ih
      · exact absurd hk hv

theorem replaceFirstVideo_find_video (nt : MediaTrack)
    (h : nt.kind = TrackKind.video) (l : List MediaTrack) :
    (replaceFirstVideo nt l).find? (fun t => t.kind = TrackKind.video) =
      (l.find? (fun t => t.kind = TrackKind.video)).map (fun _ => nt) := by
  induction l with
  | nil => rfl
  | cons t ts ih =>
    by_cases hv : t.kind = TrackKind.video
    · simp [replaceFirstVideo, hv, h, List.find?]
    · simpa [replaceFirstVideo, hv, List.find?] using ih

/-! ## Claims -/

/-- C3: starting from a zero attempt counter, consecutive abnormal closes
with no successful reconnection in between schedule retries after exactly
2s, 4s, 8s, 16s and 30s; the sixth consecutive failure surfaces a fatal
error and schedules no further retry; and `ws.onopen` resets the attempt
counter to zero. -/
theorem reconnect_backoff_schedule (roomId : String) (code : Nat)
    (s : ClientState) (h8 : code ≠ 1008) (h0 : code ≠ 1000)
    (ha : s.reconnectAttempts = 0) :
    consecutiveCloseOutcomes roomId code s 6 =
      [CloseOutcome.retryScheduled 2000, CloseOutcome.retryScheduled 4000,
       CloseOutcome.retryScheduled 8000, CloseOutcome.retryScheduled 16000,
       CloseOutcome.retryScheduled 30000, CloseOutcome.fatalMaxAttempts] ∧
    (∀ (rid u : String) (s2 : ClientState),
      ((wsOnOpen rid u s2).1).reconnectAttempts = 0) := by
  refine ⟨?_, fun rid u s2 => rfl⟩
  show consecutiveCloseOutcomes roomId code s (5 + 1) = _
  simp only [consecutiveCloseOutcomes, wsOnClose, maxReconnectAttempts,
    h8, h0, ha, if_neg, if_pos]
  norm_num

/-- C3 witness: the schedule at close code 1006 from the initial state. -/
theorem reconnect_backoff_schedule_witness :
    consecutiveCloseOutcomes "room1" 1006 initialClientState 6 =
      [CloseOutcome.retryScheduled 2000, CloseOutcome.retryScheduled 4000,
       CloseOutcome.retryScheduled 8000, CloseOutcome.retryScheduled 16000,
       CloseOutcome.retryScheduled 30000, CloseOutcome.fatalMaxAttempts] ∧
    (∀ (rid u : String) (s2 : ClientState),
      ((wsOnOpen rid u s2).1).reconnectAttempts = 0) :=
  reconnect_backoff_schedule "room1" 1006 initialClientState
    (by decide) (by decide) rfl

/-- C5: close code 1008 (room gone) surfaces a fatal error and schedules
no retry; close code 1000 (normal closure) schedules no retry and sets no
error; a retry is scheduled only for a close code other than 1008 and
1000, and for every such code it is scheduled while the attempt counter
is below the maximum. -/
theorem close_code_retry_policy (roomId : String) (code : Nat)
    (s : ClientState) :
    ((wsOnClose roomId 1008 s).2 = CloseOutcome.fatalRoomMissing ∧
      (wsOnClose roomId 1008 s).1.errorMsg.isSome = true ∧
      (wsOnClose roomId 1008 s).1.reconnectTimerActive =
        s.reconnectTimerActive) ∧
    ((wsOnClose roomId 1000 s).2 = CloseOutcome.normalClosure ∧
      (wsOnClose roomId 1000 s).1.errorMsg = s.errorMsg ∧
      (wsOnClose roomId 1000 s).1.reconnectTimerActive =
        s.reconnectTimerActive) ∧
    (∀ d, (wsOnClose roomId code s).2 = CloseOutcome.retryScheduled d →
      code ≠ 1008 ∧ code ≠ 1000) ∧
    (code ≠ 1008 → code ≠ 1000 →
      s.reconnectAttempts < maxReconnectAttempts →
      ∃ d, (wsOnClose roomId code s).2 = CloseOutcome.retryScheduled d) := by
  refine ⟨⟨rfl, rfl, rfl⟩, ⟨rfl, rfl, rfl⟩, ?_, ?_⟩
  · intro d hd
    by_cases h8 : code = 1008
    · simp [wsOnClose, h8] at hd
    · by_cases h0 : code = 1000
      · simp [wsOnClose, h8, h0] at hd
      · exact ⟨h8, h0⟩
  · intro h8 h0 hlt
    exact ⟨min (1000 * 2 ^ (s.reconnectAttempts + 1)) 30000,
      by simp [wsOnClose, h8, h0, hlt]⟩

/-- C5 witness: the policy at close code 3001 from the initial state. -/
theorem close_code_retry_policy_witness :
    (wsOnClose "room1" 1008 initialClientState).2 =
      CloseOutcome.fatalRoomMissing ∧
    (wsOnClose "room1" 1000 initialClientState).2 =
      CloseOutcome.normalClosure ∧
    ((3001 : Nat) ≠ 1008 ∧ (3001 : Nat) ≠ 1000) ∧
    (∃ d, (wsOnClose "room1" 3001 initialClientState).2 =
      CloseOutcome.retryScheduled d) := by
  have h := close_code_retry_policy "room1" 3001 initialClientState
  exact ⟨h.1.1, h.2.1.1,
    h.2.2.1 2000 (by decide),
    h.2.2.2 (by decide) (by decide) (by decide)⟩

/-- C1 counterexample: a client already present in the room (identity
"me", open socket, empty peer map) that receives `user-joined` announcing
the distinct remote identity "alice" responds by sending an offer — it
does initiate negotiation toward the newly announced peer. -/
theorem user_joined_offer_counterexample :
    (handleSignalingMessage "room1"
        ⟨"user-joined", none, some "alice", MsgData.empty⟩
        { initialClientState with myId := some "me",
                                  wsReady := some wsOPEN }).2 =
      [OutMsg.offerMsg "room1" offerDesc] := by
  rfl

/-- C1 amended: on a `user-joined` announcing a remote identity that is
distinct from the client's own and has no PeerLink yet, the
already-present client does initiate: it creates a PeerLink, sets a local
offer on it and sends that offer (so both sides of a join initiate — the
joiner via `existing-participants` and the nodes already present via
`user-joined`; only duplicates and self are suppressed). -/
theorem user_joined_initiates (roomId uid : String) (s : ClientState)
    (hself : s.myId ≠ some uid) (hnew : mapHas s.peers uid = false)
    (hws : s.wsReady = some wsOPEN) :
    handleSignalingMessage roomId ⟨"user-joined", none, some uid, MsgData.empty⟩ s =
      ({ s with peers := mapSet s.peers uid { freshPeerLink s with localDescription := some offerDesc } },
       [OutMsg.offerMsg roomId offerDesc]) := by
  simp [handleSignalingMessage, handleUserJoined, sendSignalingMessage,
    hself, hnew, hws]

/-- C1 amended witness: the amended statement at a concrete state. -/
theorem user_joined_initiates_witness :
    handleSignalingMessage "room1"
        ⟨"user-joined", none, some "bob", MsgData.empty⟩
        { initialClientState with myId := some "me",
                                  wsReady := some wsOPEN } =
      ({ initialClientState with
            myId := some "me", wsReady := some wsOPEN,
            peers := [("bob",
              (⟨some offerDesc, none, [], [], false⟩ : PeerLink))] },
       [OutMsg.offerMsg "room1" offerDesc]) := by
  have h := user_joined_initiates "room1" "bob"
    { initialClientState with myId := some "me", wsReady := some wsOPEN }
    (by decide) (by decide) rfl
  simpa [initialClientState, mapSet, mapHas, freshPeerLink] using h

/-- C4: for a remote identity that already has an entry in the peer map,
a duplicate `user-joined` and a duplicate `existing-participants` entry
are both complete no-ops: no second PeerLink is created, no offer is
sent, and the state is unchanged. -/
theorem duplicate_identity_noop (roomId uid : String) (s : ClientState)
    (hdup : mapHas s.peers uid = true) :
    handleSignalingMessage roomId
        ⟨"user-joined", none, some uid, MsgData.empty⟩ s = (s, []) ∧
    handleSignalingMessage roomId
        ⟨"existing-participants", none, none, MsgData.participants [uid]⟩ s =
      (s, []) := by
  constructor
  · by_cases hself : s.myId = some uid
    · simp [handleSignalingMessage, handleUserJoined, hself]
    · simp [handleSignalingMessage, handleUserJoined, hself, hdup]
  · by_cases hself : s.myId = some uid
    · simp [handleSignalingMessage, handleExistingParticipants,
        existingParticipantStep, hself]
    · simp [handleSignalingMessage, handleExistingParticipants,
        existingParticipantStep, hself, hdup]

/-- C4 witness: the duplicate guards at a concrete state whose peer map
already holds "bob". -/
theorem duplicate_identity_noop_witness :
    handleSignalingMessage "room1"
        ⟨"user-joined", none, some "bob", MsgData.empty⟩
        { initialClientState with
            myId := some "me",
            peers := [("bob", (⟨none, none, [], [], false⟩ : PeerLink))],
            wsReady := some wsOPEN } =
      ({ initialClientState with
            myId := some "me",
            peers := [("bob", (⟨none, none, [], [], false⟩ : PeerLink))],
            wsReady := some wsOPEN }, []) ∧
    handleSignalingMessage "room1"
        ⟨"existing-participants", none, none, MsgData.participants ["bob"]⟩
        { initialClientState with
            myId := some "me",
            peers := [("bob", (⟨none, none, [], [], false⟩ : PeerLink))],
            wsReady := some wsOPEN } =
      ({ initialClientState with
            myId := some "me",
            peers := [("bob", (⟨none, none, [], [], false⟩ : PeerLink))],
            wsReady := some wsOPEN }, []) :=
  duplicate_identity_noop "room1" "bob"
    { initialClientState with
        myId := some "me",
        peers := [("bob", (⟨none, none, [], [], false⟩ : PeerLink))],
        wsReady := some wsOPEN } (by decide)

/-- C10: the offer and answer handlers are asymmetric when the sender has
no PeerLink yet: an incoming offer creates a fresh PeerLink, applies the
offer as its remote description, sets a local answer and sends the
answer; an incoming answer from an unknown sender is silently discarded —
state unchanged, nothing sent. -/
theorem offer_answer_asymmetry (roomId sid : String) (d : SessionDesc)
    (s : ClientState) (hself : s.myId ≠ some sid)
    (hnone : mapGet s.peers sid = none) :
    handleSignalingMessage roomId ⟨"offer", some sid, none, MsgData.desc d⟩ s =
      ({ s with peers := mapSet s.peers sid { freshPeerLink s with remoteDescription := some d, localDescription := some answerDesc } },
       sendSignalingMessage s (OutMsg.answerMsg roomId answerDesc)) ∧
    handleSignalingMessage roomId ⟨"answer", some sid, none, MsgData.desc d⟩ s =
      (s, []) := by
  constructor
  · simp [handleSignalingMessage, handleOffer, Ne.symm hself, hnone]
  · simp [handleSignalingMessage, handleAnswer, Ne.symm hself, hnone]

/-- C10 witness: both handlers at a concrete state with an empty peer
map. -/
theorem offer_answer_asymmetry_witness :
    handleSignalingMessage "room1"
        ⟨"offer", some "alice", none, MsgData.desc ⟨"sdp-a", "offer"⟩⟩
        { initialClientState with myId := some "me",
                                  wsReady := some wsOPEN } =
      ({ initialClientState with
            myId := some "me", wsReady := some wsOPEN,
            peers := [("alice", (⟨some answerDesc, some ⟨"sdp-a", "offer"⟩, [], [], false⟩ : PeerLink))] },
       [OutMsg.answerMsg "room1" answerDesc]) ∧
    handleSignalingMessage "room1"
        ⟨"answer", some "alice", none, MsgData.desc ⟨"sdp-a", "answer"⟩⟩
        { initialClientState with myId := some "me",
                                  wsReady := some wsOPEN } =
      ({ initialClientState with myId := some "me",
                                 wsReady := some wsOPEN }, []) := by
  have h := offer_answer_asymmetry "room1" "alice" ⟨"sdp-a", "offer"⟩
    { initialClientState with myId := some "me", wsReady := some wsOPEN }
    (by decide) rfl
  have h2 := offer_answer_asymmetry "room1" "alice" ⟨"sdp-a", "answer"⟩
    { initialClientState with myId := some "me", wsReady := some wsOPEN }
    (by decide) rfl
  exact ⟨by simpa [initialClientState, mapSet, mapHas, freshPeerLink,
      sendSignalingMessage] using h.1, h2.2⟩

/-- C2 (defect evidence): an incoming ICE candidate whose sender identity
has no PeerLink is silently discarded — the state is completely unchanged
(the candidate is queued nowhere) and nothing is sent; and for an
existing PeerLink whose remote description is not yet set, the candidate
is likewise lost rather than queued or applied later. -/
theorem ice_candidate_dropped_not_queued :
    (handleSignalingMessage "room1"
        ⟨"ice-candidate", some "alice", none, MsgData.cand ⟨"cand0", 0, "0"⟩⟩
        { initialClientState with
            myId := some "me", wsReady := some wsOPEN } =
      ({ initialClientState with
            myId := some "me", wsReady := some wsOPEN }, [])) ∧
    (handleSignalingMessage "room1"
        ⟨"ice-candidate", some "bob", none, MsgData.cand ⟨"cand0", 0, "0"⟩⟩
        { initialClientState with
            myId := some "me",
            peers := [("bob", (⟨none, none, [], [], false⟩ : PeerLink))],
            wsReady := some wsOPEN } =
      ({ initialClientState with
            myId := some "me",
            peers := [("bob", (⟨none, none, [], [], false⟩ : PeerLink))],
            wsReady := some wsOPEN }, [])) := by
  constructor
  · rfl
  · rfl

/-- C6: `handleLeave` tears everything down: the peer map ends empty and
the identity of every previously held PeerLink is closed, every local
media track is stopped, the WebSocket is closed and nulled, and the
pending reconnection timer is cancelled, so no reconnect can fire after
an explicit leave. -/
theorem handleLeave_teardown (roomId : String) (s : ClientState) :
    (handleLeave roomId s).1.peers = [] ∧
    (handleLeave roomId s).2.2 = s.peers.map (fun p => p.1) ∧
    (handleLeave roomId s).1.localTracks =
      s.localTracks.map
        (List.map (fun t : MediaTrack => { t with stopped := true })) ∧
    (∀ t, t ∈ ((handleLeave roomId s).1.localTracks.getD []) →
      t.stopped = true) ∧
    (handleLeave roomId s).1.wsReady = none ∧
    (handleLeave roomId s).1.reconnectTimerActive = false := by
  refine ⟨rfl, rfl, rfl, ?_, rfl, rfl⟩
  intro t ht
  cases h : s.localTracks with
  | none => simp [handleLeave, h] at ht
  | some l =>
    simp [handleLeave, h, List.mem_map] at ht
    obtain ⟨u, _, rfl⟩ := ht
    rfl

/-- C6 witness: the teardown at a concrete in-call state with one peer,
live camera tracks, an open socket and a pending reconnect timer. -/
theorem handleLeave_teardown_witness :
    (handleLeave "room1"
      { initialClientState with
          myId := some "me",
          peers := [("bob", (⟨none, none, [], [], false⟩ : PeerLink))],
          localTracks := some cameraTracks,
          wsReady := some wsOPEN,
          reconnectTimerActive := true }).1.peers = [] ∧
    (handleLeave "room1"
      { initialClientState with
          myId := some "me",
          peers := [("bob", (⟨none, none, [], [], false⟩ : PeerLink))],
          localTracks := some cameraTracks,
          wsReady := some wsOPEN,
          reconnectTimerActive := true }).2.2 = ["bob"] ∧
    (⟨TrackKind.video, TrackSource.camera, true⟩ : MediaTrack).stopped = true := by
  have h := handleLeave_teardown "room1"
    { initialClientState with
        myId := some "me",
        peers := [("bob", (⟨none, none, [], [], false⟩ : PeerLink))],
        localTracks := some cameraTracks,
        wsReady := some wsOPEN,
        reconnectTimerActive := true }
  refine ⟨h.1, by simpa using h.2.1, ?_⟩
  exact h.2.2.2.1 ⟨TrackKind.video, TrackSource.camera, true⟩ (by
    simp [handleLeave, cameraTracks])

/-- C7 (defect evidence): starting screen share at the sample state
sends no signaling message and replaces exactly the video sender track
of the existing PeerLink with the screen track, keeping its descriptions
and audio sender; but when the shared screen track ends, the registered
handler re-runs the start-share branch, because its closure captured the
render in which `isScreenSharing` was still false: a rejected renewed
`getDisplayMedia` call leaves the state entirely unchanged, a granted
one installs the screen track again, and on either path the PeerLink's
video sender remains the screen track — it is never reverted to a
camera track, contrary to the source's own comment that the handler
"will revert to camera". -/
theorem screen_share_no_revert_on_ended :
    (toggleScreenShare false true sampleShareState).2 = [] ∧
    mapGet (toggleScreenShare false true sampleShareState).1.peers "bob" =
      some (withVideoSender screenVideoTrack samplePeerLink) ∧
    audioSenderTracks (withVideoSender screenVideoTrack samplePeerLink) =
      audioSenderTracks samplePeerLink ∧
    (withVideoSender screenVideoTrack samplePeerLink).localDescription =
      samplePeerLink.localDescription ∧
    (withVideoSender screenVideoTrack samplePeerLink).remoteDescription =
      samplePeerLink.remoteDescription ∧
    (screenTrackEnded false (toggleScreenShare false true sampleShareState).1).1 =
      (toggleScreenShare false true sampleShareState).1 ∧
    (screenTrackEnded false (toggleScreenShare false true sampleShareState).1).2 = [] ∧
    (∀ g, ∃ q,
      mapGet (screenTrackEnded g (toggleScreenShare false true sampleShareState).1).1.peers "bob" = some q ∧
      videoSenderTrack q = some screenVideoTrack) := by
  refine ⟨rfl, rfl, rfl, rfl, rfl, rfl, rfl, ?_⟩
  intro g
  cases g
  · exact ⟨_, rfl, rfl⟩
  · exact ⟨_, rfl, rfl⟩

/-- C8: when getUserMedia fails, `initializeLocalStream` records the
error, clears the loading flag and returns normally without acquiring
media; initialization still invokes `connectWebSocket`, which creates the
socket, and its `onopen` handler then sends the `join` message — the
client joins the room without local media rather than aborting the
session. -/
theorem media_failure_still_joins (roomId username : String)
    (s : ClientState) (hroom : roomId ≠ "") :
    (initializeLocalStream false s).errorMsg.isSome = true ∧
    (initializeLocalStream false s).isLoading = false ∧
    (initializeLocalStream false s).localTracks = s.localTracks ∧
    (initCall false roomId s).2 = true ∧
    (initCall false roomId s).1.wsReady = some 0 ∧
    (wsOnOpen roomId username (initCall false roomId s).1).2 =
      [OutMsg.joinMsg roomId username] := by
  refine ⟨rfl, rfl, rfl, ?_, ?_, rfl⟩
  · simp [initCall, hroom]
  · by_cases hws : s.wsReady = some wsOPEN
    · simp [initCall, hroom, connectWebSocket, initializeLocalStream, hws]
    · simp [initCall, hroom, connectWebSocket, initializeLocalStream, hws]

/-- C8 witness: the degraded initialization from the mount state. -/
theorem media_failure_still_joins_witness :
    (initializeLocalStream false initialClientState).errorMsg.isSome = true ∧
    (initializeLocalStream false initialClientState).isLoading = false ∧
    (initializeLocalStream false initialClientState).localTracks = none ∧
    (initCall false "room1" initialClientState).2 = true ∧
    (initCall false "room1" initialClientState).1.wsReady = some 0 ∧
    (wsOnOpen "room1" "dana" (initCall false "room1" initialClientState).1).2 =
      [OutMsg.joinMsg "room1" "dana"] :=
  media_failure_still_joins "room1" "dana" initialClientState (by decide)

/-- C9: `checkRoomExists` yields false on a 404 response; yields false on
a successful (2xx) response without a true `exists` field; yields true
exactly when the response is successful and carries a true `exists`
field; and it throws exactly on a network failure or on a non-OK,
non-404 status. -/
theorem checkRoomExists_spec (st : Nat) (ef : Option Bool) :
    checkRoomExists (FetchOutcome.httpResponse 404 ef) = Except.ok false ∧
    (statusOk st = true → ef ≠ some true →
      checkRoomExists (FetchOutcome.httpResponse st ef) = Except.ok false) ∧
    (checkRoomExists (FetchOutcome.httpResponse st ef) = Except.ok true ↔
      statusOk st = true ∧ ef = some true) ∧
    ((∃ e, checkRoomExists (FetchOutcome.httpResponse st ef) = Except.error e)
      ↔ (st ≠ 404 ∧ statusOk st = false)) ∧
    (∃ e, checkRoomExists FetchOutcome.networkFailure = Except.error e) := by
  have h404 : statusOk 404 = false := by decide
  refine ⟨by simp [checkRoomExists], ?_, ?_, ?_, ⟨_, rfl⟩⟩
  · intro hok hne
    have h4 : st ≠ 404 := by
      intro h
      rw [h] at hok
      simp [h404] at hok
    cases ef with
    | none => simp [checkRoomExists, h4, hok]
    | some b =>
      cases b with
      | false => simp [checkRoomExists, h4, hok]
      | true => exact absurd rfl hne
  · by_cases h4 : st = 404
    · subst h4
      simp [checkRoomExists, h404]
    · by_cases hok : statusOk st = true
      · cases ef with
        | none => simp [checkRoomExists, h4, hok]
        | some b => cases b <;> simp [checkRoomExists, h4, hok]
      · simp only [Bool.not_eq_true] at hok
        simp [checkRoomExists, h4, hok]
  · by_cases h4 : st = 404
    · subst h4
      simp [checkRoomExists]
    · by_cases hok : statusOk st = true
      · cases ef with
        | none => simp [checkRoomExists, h4, hok]
        | some b => cases b <;> simp [checkRoomExists, h4, hok]
      · simp only [Bool.not_eq_true] at hok
        simp [checkRoomExists, h4, hok]

/-- C9 witness: the lookup outcomes at concrete responses — 404, a 2xx
body without `exists`, a 2xx body with `exists: true`, and a 500. -/
theorem checkRoomExists_spec_witness :
    checkRoomExists (FetchOutcome.httpResponse 404 none) = Except.ok false ∧
    checkRoomExists (FetchOutcome.httpResponse 200 none) = Except.ok false ∧
    checkRoomExists (FetchOutcome.httpResponse 200 (some true)) =
      Except.ok true ∧
    (∃ e, checkRoomExists (FetchOutcome.httpResponse 500 none) =
      Except.error e) := by
  have h1 := checkRoomExists_spec 200 none
  have h2 := checkRoomExists_spec 200 (some true)
  have h3 := checkRoomExists_spec 500 none
  exact ⟨(checkRoomExists_spec 404 none).1,
    h1.2.1 (by decide) (by decide),
    h2.2.2.1.mpr ⟨by decide, rfl⟩,
    h3.2.2.2.1.mpr ⟨by decide, by decide⟩⟩

end VC
